import Mathlib

/-!
Verification of the purchase/invoice pipeline of a Telegram commerce bot.

This file gives a shallow embedding, in Lean 4, of the core of the bot:

* `utils/converters.py` — the quota/expiry conversions (`gb_to_bytes`,
  `convert_days_to_epoch`);
* `utils/bot_tools.py` — the invoice price computation inside
  `create_invoice`, and the `edit_or_send_new` message-slot operation with
  its per-chat lock, modelled as a small-step interleaving machine;
* `handlers/callbacks/defualt.py` — the purchase state machine: the
  "paid" confirmation, the admin `confirm_payment` approval transition,
  the `addUser`/`deductUser` negotiation guards, and the free-trial path;
* `handlers/default_handlers.py` — the `cancelPurchase` and receipt-photo
  handlers;
* `database/redis_tools.py` — the shared cache (`set_shared_data` stores
  `str(value)`; `get_shared_data` returns the raw string and re-raises
  backend errors);
* `database/db_tools.py` / `core/database/db_tools.py` — `fetch_data`,
  which swallows query errors and returns `None`.

Python `Decimal` values are modelled as exact rationals (`ℚ`), machine
integers as `ℤ`/`ℕ` (Python ints are unbounded), and fallible operations
as `Option`/`Except`.  Redis and MySQL are modelled as explicit state
threaded through the handlers; the Telegram transport (sending, editing,
alert popups) is modelled by the outputs the handlers produce.
-/

/-! ## Converters (`src/utils/converters.py`) -/

/-- Python `int()` truncation toward zero, applied to an exact rational. -/
def pyInt (q : ℚ) : ℤ :=
  if 0 ≤ q then ⌊q⌋ else -⌊-q⌋

/-- `gb_to_bytes(gb)` from `utils/converters.py`: `int(gb * (1024**3))`. -/
def gb_to_bytes (gb : ℚ) : ℤ :=
  pyInt (gb * 1024 ^ 3)

/-- `convert_days_to_epoch(expire_days)` from `utils/converters.py`.
`current_dt = utcnow()`; `future_dt = current_dt + timedelta(days=d)`;
`int(future_dt.timestamp() * 1000)`.  `now_us` is the epoch timestamp, in
microseconds, that `current_dt.timestamp()` denotes at the moment of the
call; the result is `int(((now_us + d*86400*10^6) / 10^6) * 1000)`,
i.e. floor division of microseconds by 1000. -/
def convert_days_to_epoch (now_us : ℕ) (expire_days : ℕ) : ℕ :=
  (now_us + expire_days * 86400 * 1000000) / 1000

/-! ## Shared cache (`src/database/redis_tools.py`)

`set_shared_data` executes `redis.set(key, str(value))`: the structured
draft is stored as Python's `str()` rendering of the dict.
`get_shared_data` returns `value.decode("utf-8")` — the raw string — when
the key exists, `None` when it does not, and re-raises `RedisError` when
the backend fails. -/

/-- Outcome of a Redis read at the backend: the key's value (or absence),
or a backend failure (`aioredis.RedisError`). -/
inductive CacheOutcome where
  | val (v : Option String)
  | redisErr
deriving DecidableEq

/-- `get_shared_data` from `src/database/redis_tools.py`: returns the
stored string, `None` on a miss, and re-raises (`Except.error`) on a
backend error — the caller can distinguish a miss from a failure. -/
def get_shared_data (o : CacheOutcome) : Except Unit (Option String) :=
  match o with
  | .val v => .ok v
  | .redisErr => .error ()

/-! ## `fetch_data` (`src/database/db_tools.py` and
`src/core/database/db_tools.py`, identical logic)

`fetch_data` runs the query; on any exception it logs and returns `None`.
With `fetch_one=True` it returns `cursor.fetchone()`, which is `None`
when no row matches; with `fetch_one=False` it returns `fetchall()` (an
empty list when no row matches). -/

/-- Outcome of a SQL query at the driver: the matching rows, or a raised
exception. -/
inductive QueryOutcome (Row : Type) where
  | ok (rows : List Row)
  | err
deriving DecidableEq

/-- `DBUtil.fetch_data`: `err ↦ None` (the exception is swallowed and
logged); `fetch_one=True ↦ fetchone()` (the first row, or `None`);
`fetch_one=False ↦ fetchall()`. -/
def fetch_data (Row : Type) (outcome : QueryOutcome Row) (fetch_one : Bool) :
    Option (Row ⊕ List Row) :=
  match outcome with
  | .err => none
  | .ok rows => if fetch_one then rows.head?.map Sum.inl else some (Sum.inr rows)

/-! ## Pricing (`create_invoice` in `src/utils/bot_tools.py`) -/

/-- The row `create_invoice` fetches: a tariff joined with its
subscription and country.  `Decimal` columns are exact rationals. -/
structure TariffRow where
  price : ℚ
  duration : ℕ
  volume : Option ℕ
  addedPricePerUser : ℚ
  pricePerGig : ℚ
  volumeExtendable : Bool
  userExtendable : Bool
  numberOfUsers : ℕ
  platform : String
deriving DecidableEq

/-- The priced invoice produced by `create_invoice`: the exact new price
and the figure rendered in the message text
(`"{:,}".format(int(new_price))` and `<code>{int(new_price)}</code>`). -/
structure Invoice where
  new_price : ℚ
  displayed_price : ℤ
  total_users : ℕ
deriving DecidableEq

/-- The price computation of `create_invoice(tariff_id, country_id,
current_additional_users, current_price, additional_volume)`.  The
`current_price` carried in the callback payload is defaulted to the base
price when absent but is never used: `new_price` is recomputed from the
base price, so the result is a pure function of the tariff row and the
two deltas. -/
def create_invoice (t : TariffRow) (current_price : Option ℚ)
    (current_additional_users additional_volume : ℕ) : Invoice :=
  let _current_price : ℚ := current_price.getD t.price
  let additional_cost_for_users : ℚ :=
    if 0 < current_additional_users then
      t.price * (t.addedPricePerUser / 100) * current_additional_users
    else 0
  let additional_cost_per_gig : ℚ :=
    if 0 < additional_volume then t.pricePerGig * additional_volume else 0
  let new_price := t.price + additional_cost_for_users + additional_cost_per_gig
  { new_price := new_price
    displayed_price := pyInt new_price
    total_users := t.numberOfUsers + current_additional_users }

/-- The end-to-end pricing scenario's tariff: base price 100,000,
`AddedPricePerUser = 10` (percent), `PricePerGig = 500`. -/
def demoTariff : TariffRow :=
  { price := 100000, duration := 30, volume := some 50
    addedPricePerUser := 10, pricePerGig := 500
    volumeExtendable := true, userExtendable := true
    numberOfUsers := 2, platform := "xui" }

/-! ## Purchase records (`PurchaseHistory` in `src/database/schema.py`)

`Status enum('pending','cancel','rejected','completed') DEFAULT 'pending'`;
the admin approval writes `Status=4`, the enum's fourth member,
`completed`. -/

/-- The `Status` column of `PurchaseHistory`. -/
inductive Status where
  | pending
  | cancel
  | rejected
  | completed
deriving DecidableEq

/-- A row of `PurchaseHistory`.  `Amount` is `decimal(10,2)`; every value
the handlers insert is `Decimal(amount)` of an integral callback field,
so it is modelled as `ℤ`. -/
structure PurchaseRecord where
  purchaseID : ℕ
  chatID : ℤ
  tariffID : ℕ
  amount : ℤ
  status : Status
  subscriptionURL : Option String
deriving DecidableEq

/-- The `PurchaseHistory` table with its `AUTO_INCREMENT` counter. -/
structure PurchaseDB where
  rows : List PurchaseRecord
  nextID : ℕ
deriving DecidableEq

/-- `INSERT INTO PurchaseHistory (ChatID, TariffID, Amount) VALUES …`
(the `paid_` branch of `callback_inline`): `Status` takes the schema
default `pending`, `SubscriptionURL` is `NULL`, and the generated
`PurchaseID` (`cursor.lastrowid`) is returned. -/
def insertPurchase (db : PurchaseDB) (chat : ℤ) (tariff : ℕ) (amount : ℤ) :
    PurchaseDB × ℕ :=
  ({ rows := db.rows ++
        [{ purchaseID := db.nextID, chatID := chat, tariffID := tariff
           amount := amount, status := .pending, subscriptionURL := none }]
     nextID := db.nextID + 1 },
   db.nextID)

/-- `UPDATE PurchaseHistory SET Status = 'cancel' WHERE PurchaseID=%s`
(`handle_purchase` in `src/handlers/default_handlers.py`): the `WHERE`
clause matches only the purchase id — there is no status predicate. -/
def updateStatusCancel (db : PurchaseDB) (pid : ℕ) : PurchaseDB :=
  { db with rows := db.rows.map fun r =>
      if r.purchaseID = pid then { r with status := .cancel } else r }

/-- `UPDATE PurchaseHistory SET Status=4, SubscriptionURL=%s WHERE
PurchaseID=%s` (the `confirm_payment_` branch): status member 4 is
`completed`. -/
def updateStatusCompleted (db : PurchaseDB) (pid : ℕ) (url : String) :
    PurchaseDB :=
  { db with rows := db.rows.map fun r =>
      if r.purchaseID = pid then
        { r with status := .completed, subscriptionURL := some url }
      else r }

/-! ## Python `str(dict)` round-trip through the shared cache

`set_shared_data` stores `str(value)`; the handlers later index the value
returned by `get_shared_data` — a `str` — with string keys
(`purchase_data["tariff_id"]`), which in Python raises
`TypeError: string indices must be integers`. -/

/-- The draft purchase dict written by the `paid_` branch (`duration` is
kept as the string split from the callback payload, here a numeral). -/
structure PurchaseData where
  tariff_id : ℕ
  users : ℕ
  volume : ℕ
  amount : ℤ
  purchase_id : ℕ
  platform : String
  duration : ℕ
  name : String
deriving DecidableEq

/-- Python's `str()` rendering of the `purchase_data` dict — what
`set_shared_data` actually stores in Redis.  (The exact rendering is
never parsed by any caller.) -/
def pyStrOfDict (pd : PurchaseData) : String :=
  "\x7b'tariff_id': " ++ toString pd.tariff_id ++
  ", 'users': " ++ toString pd.users ++
  ", 'volume': " ++ toString pd.volume ++
  ", 'amount': " ++ toString pd.amount ++
  ", 'purchase_id': " ++ toString pd.purchase_id ++
  ", 'platform': '" ++ pd.platform ++
  "', 'duration': '" ++ toString pd.duration ++
  "', 'name': '" ++ pd.name ++ "'\x7d"

/-- Python subscription `s[key]` on a `str` value with a `str` key: it
never yields a field — it raises `TypeError` whatever the string holds. -/
def pyStrGetItem (_s : String) (_key : String) : Option PurchaseData :=
  none

/-! ## Provisioning gateway (`src/service_handler/factory.py`) -/

/-- The backend panel implementations behind `CreateUserFactory`. -/
inductive PanelHandler where
  | xui
  | hiddify
deriving DecidableEq

/-- `CreateUserFactory.get_create_user_handler`: pure lookup by the
platform string; unknown platforms log and return `None`. -/
def get_create_user_handler (platform : String) : Option PanelHandler :=
  if platform = "xui" then some .xui
  else if platform = "hiddify" then some .hiddify
  else none

/-- The `Servers` row fetched before provisioning. -/
structure ServerInfo where
  serverIP : String
  username : String
  password : String
  inboundID : ℕ
deriving DecidableEq

/-- The settings bag assembled for the `xui` backend: quota in bytes via
`gb_to_bytes`, expiry via `convert_days_to_epoch`. -/
structure ProvisionSetting where
  inbound_id : ℕ
  email : String
  limit_ip : ℕ
  total_gb : ℤ
  expiry_time : ℕ
deriving DecidableEq

/-! ## The purchase flow state machine

`FlowState` collects the state the cited handlers read and write for one
user chat: the `PurchaseHistory` table, the aiogram FSM state of the
user's chat, the user's `purchase_data` cache entry (a string — see
`pyStrOfDict`), the number of `create_user` calls made to the
provisioning gateway, and whether a receipt photo reached the admins.

Dispatch follows the aiogram registrations:
* `callback_inline` (`paid_`, `confirm_payment_`, …) is registered with
  `state=None`, so it runs only in the default FSM state of the chat the
  button was pressed in; `confirm_payment_` is pressed in an *admin*
  chat, whose FSM state is default in these flows, so it dispatches
  regardless of the user chat's state;
* `handle_purchase` (`cancelPurchase_`) and `handle_receipt_photo` are
  registered with `state=InputPhotoState.wait_for_photo`. -/

/-- The aiogram FSM state of the user's chat. -/
inductive FSMState where
  | idle
  | waitForPhoto
deriving DecidableEq

/-- The state read and written by the purchase handlers. -/
structure FlowState where
  db : PurchaseDB
  fsm : FSMState
  cache : Option String
  provisionCalls : ℕ
  adminHasReceipt : Bool
deriving DecidableEq

/-- External collaborators of the handlers: the user's chat id and stored
name, the wall clock, the `Servers` lookup per tariff id, and the remote
panel's response to `create_user` (`none` models a raised exception). -/
structure FlowEnv where
  chatID : ℤ
  userName : String
  now_us : ℕ
  serverInfo : ℕ → Option ServerInfo
  createUser : PanelHandler → Option ProvisionSetting → Option String

/-- An inbound update relevant to the purchase flow. -/
inductive Update where
  | paid (tariff_id total_users total_volume : ℕ) (amount : ℤ)
      (platform : String) (duration : ℕ)
  | cancelPurchase (purchase_id : ℕ)
  | receiptPhoto
  | confirmPayment
deriving DecidableEq

/-- What a handler surfaced to the chats (alerts, errors, messages). -/
inductive Output where
  | promptReceipt
  | dataNotFound
  | typeErrorCaught
  | noServerInfo
  | exceptionCaught
  | provisioned (url : String)
  | cancelled
  | receiptForwarded
  | notDispatched
deriving DecidableEq

/-- The `paid_` branch of `callback_inline` (`state=None`), lines
425–475: insert one `PurchaseHistory` row (status defaults to
`pending`), fetch the user's name, write the draft dict into the shared
cache as `str(dict)`, set `InputPhotoState.wait_for_photo`, and prompt
for the receipt. -/
def handlePaid (env : FlowEnv) (tariff_id total_users total_volume : ℕ)
    (amount : ℤ) (platform : String) (duration : ℕ) (s : FlowState) :
    FlowState × Output :=
  let (db', purchase_id) := insertPurchase s.db env.chatID tariff_id amount
  let pd : PurchaseData :=
    { tariff_id := tariff_id, users := total_users, volume := total_volume
      amount := amount, purchase_id := purchase_id, platform := platform
      duration := duration, name := env.userName }
  ({ s with db := db', cache := some (pyStrOfDict pd), fsm := .waitForPhoto },
   .promptReceipt)

/-- `handle_purchase` (`cancelPurchase_{purchase_id}`,
`state=wait_for_photo`) in `src/handlers/default_handlers.py`:
`state.finish()` then the unguarded
`UPDATE PurchaseHistory SET Status = 'cancel' WHERE PurchaseID=%s`. -/
def handleCancelPurchase (purchase_id : ℕ) (s : FlowState) :
    FlowState × Output :=
  ({ s with fsm := .idle, db := updateStatusCancel s.db purchase_id },
   .cancelled)

/-- `handle_receipt_photo` (`state=wait_for_photo`): it reads
`purchase_data` from the cache and immediately evaluates
`purchase_data["amount"]`.  The cache value is a `str` (or `None` on a
miss), so this raises `TypeError`, caught by the handler's broad
`except` — before `state.finish()` and before the photo is forwarded to
the admins.  The forwarding branch is kept for the (unreachable)
case of a structured value. -/
def handleReceiptPhoto (s : FlowState) : FlowState × Output :=
  match s.cache with
  | none => (s, .typeErrorCaught)
  | some raw =>
    match pyStrGetItem raw "amount" with
    | none => (s, .typeErrorCaught)
    | some _pd =>
      ({ s with fsm := .idle, adminHasReceipt := true }, .receiptForwarded)

/-- Lines 511–581 of the `confirm_payment_` branch, from the `Servers`
lookup on: assemble the settings bag (only for `"xui"`; otherwise
`setting` stays `None`), dispatch through `CreateUserFactory` (a `None`
handler raises, caught by the branch's `except`), call `create_user`,
and on success mark the purchase `completed` with its subscription URL. -/
def provisionAfterConfirm (env : FlowEnv) (pd : PurchaseData) (s : FlowState) :
    FlowState × Output :=
  match env.serverInfo pd.tariff_id with
  | none => (s, .noServerInfo)
  | some srv =>
    let setting : Option ProvisionSetting :=
      if pd.platform = "xui" then
        some { inbound_id := srv.inboundID
               email := pd.name ++ "-" ++ toString pd.purchase_id ++ "-" ++
                 toString env.chatID
               limit_ip := pd.users
               total_gb := gb_to_bytes pd.volume
               expiry_time := convert_days_to_epoch env.now_us pd.duration }
      else none
    match get_create_user_handler pd.platform with
    | none => (s, .exceptionCaught)
    | some handler =>
      let s1 := { s with provisionCalls := s.provisionCalls + 1 }
      match env.createUser handler setting with
      | none => (s1, .exceptionCaught)
      | some url =>
        ({ s1 with db := updateStatusCompleted s1.db pd.purchase_id url },
         .provisioned url)

/-- The `confirm_payment_` branch of `callback_inline` (lines 476–586),
pressed in an admin chat: read the draft from the shared cache; if
absent, alert "اطلاعات خرید یافت نشد" (data not found) and return;
otherwise delete the cache entry **before** extracting any field, then
extract the fields from the returned value — a `str`, so the extraction
raises `TypeError`, caught by the branch's `except` — and only then
provision. -/
def handleConfirmPayment (env : FlowEnv) (s : FlowState) :
    FlowState × Output :=
  match s.cache with
  | none => (s, .dataNotFound)
  | some raw =>
    let s1 := { s with cache := none }
    match pyStrGetItem raw "tariff_id" with
    | none => (s1, .typeErrorCaught)
    | some pd => provisionAfterConfirm env pd s1

/-- aiogram dispatch of one inbound update (see the registrations quoted
above `FSMState`). -/
def stepUpdate (env : FlowEnv) (u : Update) (s : FlowState) :
    FlowState × Output :=
  match u with
  | .paid t us v a p d =>
    if s.fsm = .idle then handlePaid env t us v a p d s
    else (s, .notDispatched)
  | .cancelPurchase pid =>
    if s.fsm = .waitForPhoto then handleCancelPurchase pid s
    else (s, .notDispatched)
  | .receiptPhoto =>
    if s.fsm = .waitForPhoto then handleReceiptPhoto s
    else (s, .notDispatched)
  | .confirmPayment => handleConfirmPayment env s

/-- Process a sequence of updates. -/
def runFlow (env : FlowEnv) (us : List Update) (s : FlowState) : FlowState :=
  match us with
  | [] => s
  | u :: rest => runFlow env rest (stepUpdate env u s).1

/-- A fresh conversation: empty purchase history, default FSM state, no
cached draft. -/
def flowInit : FlowState :=
  { db := { rows := [], nextID := 1 }, fsm := .idle, cache := none
    provisionCalls := 0, adminHasReceipt := false }

/-! ## Invoice negotiation guards (`addUser`/`deductUser` branches of
`callback_inline`, lines 334–384) -/

/-- The `addUser` branch: increment `current_additional_users` only while
`current_additional_users + default_user < NUMBER_OF_ALLOWED_USERS`;
otherwise answer the callback with the limit alert (`show_alert=True`)
and stop.  The returned flag is whether the alert was surfaced. -/
def handleAddUser (maxAllowed current_additional_users default_user : ℤ) :
    ℤ × Bool :=
  if current_additional_users + default_user < maxAllowed then
    (current_additional_users + 1, false)
  else
    (current_additional_users, true)

/-- The `deductUser` branch: `current_additional_users =
max(0, current_additional_users - 1)` when positive; otherwise answer the
callback (no alert) and stop. -/
def handleDeductUser (current_additional_users : ℤ) : ℤ × Bool :=
  if current_additional_users > 0 then
    (max 0 (current_additional_users - 1), false)
  else
    (current_additional_users, false)

/-! ## The free (price = 0) path (`purchase_` branch of
`callback_inline`, lines 194–323) -/

/-- The joined tariff/subscription/server row fetched on the free path. -/
structure FreeTariffInfo where
  tariffName : String
  duration : ℕ
  totalVolume : ℕ
  totalUsers : ℕ
  platform : String
  server : ServerInfo
deriving DecidableEq

/-- State touched by the free path: the user's persistent
`UsedTestAcount` flag and the gateway call counter. -/
structure FreeState where
  usedTestAcount : Bool
  provisionCalls : ℕ
deriving DecidableEq

/-- What the free path surfaced to the user. -/
inductive FreeOutput where
  | alreadyUsedAlert
  | orderNotFound
  | provisioned
  | errorCaught
  | unhandledError
deriving DecidableEq

/-- The free path: fetch `UsedTestAcount` (`fetchRow`; `none` models the
query failing, which makes the tuple unpacking raise outside any `try`).
If the flag is set, answer "شما یکبار از این سرویس استفاده کرده‌اید"
(already used) with `show_alert=True` and return — before any tariff
lookup and before any `create_user` call.  Otherwise fetch the tariff
row; on `"xui"` provision and then set `UsedTestAcount=1`; on any other
platform log and return without provisioning. -/
def handleFreePurchase (env : FlowEnv) (fetchRow : Option Bool)
    (tariffInfo : Option FreeTariffInfo) (s : FreeState) :
    FreeState × FreeOutput :=
  match fetchRow with
  | none => (s, .unhandledError)
  | some has_right =>
    if has_right then (s, .alreadyUsedAlert)
    else
      match tariffInfo with
      | none => (s, .orderNotFound)
      | some info =>
        if info.platform = "xui" then
          match get_create_user_handler info.platform with
          | none => (s, .errorCaught)
          | some handler =>
            let s1 := { s with provisionCalls := s.provisionCalls + 1 }
            match env.createUser handler
                (some { inbound_id := info.server.inboundID
                        email := env.userName ++ "-uid-" ++ toString env.chatID
                        limit_ip := info.totalUsers
                        total_gb := gb_to_bytes info.totalVolume
                        expiry_time :=
                          convert_days_to_epoch env.now_us info.duration }) with
            | none => (s1, .errorCaught)
            | some _url => ({ s1 with usedTestAcount := true }, .provisioned)
        else (s, .errorCaught)

/-! ## The message slot (`edit_or_send_new` in `src/utils/bot_tools.py`)

The source, in order:
```
last_msg_id = await db_utils.get_last_message_id(chat_id)   # read pointer
get_lock = await get_chat_id_lock(chat_id)
async with get_lock:                                        # acquire … release
    if last_msg_id is None: send; store_message_id          # decide / write
    else: try edit … except (NotModified, NotFound, CantBeEdited): send; store
```
The pointer read happens *before* the lock is acquired; the
edit-or-send decision and the pointer write happen inside the
`async with` block, which releases the lock on every exit path.

Two concurrent `render` calls for one chat are modelled as two threads
stepping through this program under an arbitrary interleaving (each
`await` is a cooperative yield point). -/

/-- Program counter of one `edit_or_send_new` call, one label per
suspension-separated phase of the source. -/
inductive RenderPC where
  | readPtr
  | acquire
  | decide
  | store
  | release
  | done
deriving DecidableEq

/-- Thread-local state of one `edit_or_send_new` call. -/
structure RenderThread where
  pc : RenderPC
  readVal : Option (Option ℕ)
  myMsg : ℕ
deriving DecidableEq

/-- Shared state of one chat: the durable Active Message Pointer, the
chat's `asyncio.Lock`, the messages sent and the messages successfully
edited, plus an instrumentation trace `readLockHeld` recording, for each
executed pointer read, whether the reading thread held the lock. -/
structure RenderWorld where
  pointer : Option ℕ
  lockOwner : Option Bool
  sent : List ℕ
  edited : List ℕ
  nextId : ℕ
  thA : RenderThread
  thB : RenderThread
  readLockHeld : List Bool
deriving DecidableEq

/-- Telegram-side behaviour: whether editing message `m` succeeds
(`false` models `MessageToEditNotFound` / `MessageCantBeEdited` /
`MessageNotModified`). -/
structure RenderEnv where
  editable : ℕ → Bool

def RenderWorld.getTh (s : RenderWorld) (t : Bool) : RenderThread :=
  if t then s.thB else s.thA

def RenderWorld.setTh (s : RenderWorld) (t : Bool) (th : RenderThread) :
    RenderWorld :=
  if t then { s with thB := th } else { s with thA := th }

/-- One step of thread `t` of `edit_or_send_new`.  `acquire` blocks (is a
no-op) while the other thread owns the lock; all other phases follow the
source in order. -/
def edit_or_send_new_step (env : RenderEnv) (t : Bool) (s : RenderWorld) :
    RenderWorld :=
  let th := s.getTh t
  match th.pc with
  | .readPtr =>
    let s1 := { s with readLockHeld :=
      s.readLockHeld ++ [if s.lockOwner = some t then true else false] }
    s1.setTh t { th with pc := .acquire, readVal := some s.pointer }
  | .acquire =>
    if s.lockOwner = none then
      ({ s with lockOwner := some t } : RenderWorld).setTh t
        { th with pc := .decide }
    else s
  | .decide =>
    match th.readVal with
    | some none =>
      let mid := s.nextId
      ({ s with sent := s.sent ++ [mid], nextId := s.nextId + 1 }
        : RenderWorld).setTh t { th with pc := .store, myMsg := mid }
    | some (some m) =>
      if env.editable m then
        ({ s with edited := s.edited ++ [m] } : RenderWorld).setTh t
          { th with pc := .release }
      else
        let mid := s.nextId
        ({ s with sent := s.sent ++ [mid], nextId := s.nextId + 1 }
          : RenderWorld).setTh t { th with pc := .store, myMsg := mid }
    | none => s
  | .store =>
    ({ s with pointer := some th.myMsg } : RenderWorld).setTh t
      { th with pc := .release }
  | .release =>
    ({ s with lockOwner := none } : RenderWorld).setTh t
      { th with pc := .done }
  | .done => s

/-- Run a schedule (the sequence of threads picked at each yield point). -/
def runRender (env : RenderEnv) (sched : List Bool) (s : RenderWorld) :
    RenderWorld :=
  match sched with
  | [] => s
  | t :: rest => runRender env rest (edit_or_send_new_step env t s)

/-- A chat with no active message and two `render` calls about to run. -/
def renderInit : RenderWorld :=
  { pointer := none, lockOwner := none, sent := [], edited := [], nextId := 0
    thA := { pc := .readPtr, readVal := none, myMsg := 0 }
    thB := { pc := .readPtr, readVal := none, myMsg := 0 }
    readLockHeld := [] }

/-- Every message is editable (fresh messages in an ordinary chat). -/
def renderEnvEditable : RenderEnv := { editable := fun _ => true }

/-- The interleaving the pre-lock read permits: both threads read the
pointer before either acquires the lock, then each completes its
critical section in turn. -/
def badSched : List Bool :=
  [false, true, false, false, false, false, true, true, true, true]

/-- The fully serial schedule: thread A completes its whole call before
thread B starts. -/
def serialSched : List Bool :=
  [false, false, false, false, false, true, true, true, true]

/-- Is `pc` inside the lock-protected critical section (between a
successful `acquire` and the corresponding `release`)? -/
def inCritical (pc : RenderPC) : Bool :=
  match pc with
  | .decide => true
  | .store => true
  | .release => true
  | _ => false

/-- The locking invariant of `edit_or_send_new`: a thread is inside the
critical section exactly when it owns the chat's lock. -/
def LockInv (s : RenderWorld) : Prop :=
  (s.lockOwner = some false ↔ inCritical s.thA.pc = true) ∧
  (s.lockOwner = some true ↔ inCritical s.thB.pc = true)

/-! ## Concrete instances used by witnesses and counterexamples -/

/-- A concrete `Servers` row. -/
def srv0 : ServerInfo :=
  { serverIP := "1.2.3.4", username := "admin", password := "pw"
    inboundID := 2 }

/-- A concrete environment: the `Servers` lookup succeeds for every
tariff and the remote panel answers every `create_user` call with a
subscription URL. -/
def env0 : FlowEnv :=
  { chatID := 10, userName := "ali", now_us := 1700000000000000
    serverInfo := fun _ => some srv0
    createUser := fun _ _ => some "https://panel.example/sub/1" }

/-- A concrete draft purchase (tariff 7, `"xui"`, purchase id 1). -/
def pd0 : PurchaseData :=
  { tariff_id := 7, users := 3, volume := 50, amount := 121500
    purchase_id := 1, platform := "xui", duration := 30, name := "ali" }

/-- The state right after the user confirmed "paid" for `pd0` and the
receipt reached admin review: one `pending` row, the draft cached (as
the string Redis returns), no provisioning call made yet. -/
def sDraft : FlowState :=
  { db := { rows := [{ purchaseID := 1, chatID := 10, tariffID := 7
                       amount := 121500, status := .pending
                       subscriptionURL := none }]
            nextID := 2 }
    fsm := .waitForPhoto
    cache := some (pyStrOfDict pd0)
    provisionCalls := 0
    adminHasReceipt := true }

/-- A purchase record that already reached the terminal `completed`
status. -/
def completedPurchase : PurchaseRecord :=
  { purchaseID := 1, chatID := 10, tariffID := 7, amount := 121500
    status := .completed, subscriptionURL := some "https://panel.example/sub/1" }

/-- A `PurchaseHistory` table holding only `completedPurchase`. -/
def dbWithCompleted : PurchaseDB :=
  { rows := [completedPurchase], nextID := 2 }

/-! # Theorems -/

/-- C3.  For every tariff `T` (base price `base`, per-extra-user
percentage `pct`, per-extra-GB price `per_gig`) and all non-negative
integers `u`, `v`, the invoice price computed by `create_invoice` is
deterministic — independent of the `current_price` carried in the
callback payload — and equals `base + base*pct/100*u + per_gig*v` in
exact decimal arithmetic; for base 100000, pct 10, u 2, per_gig 500,
v 3 the computed and rendered price is exactly 121500. -/
theorem c3_invoice_price_exact :
    (∀ (t : TariffRow) (current_price : Option ℚ)
        (u v : ℕ),
      (create_invoice t current_price u v).new_price
        = t.price + t.price * t.addedPricePerUser / 100 * u
            + t.pricePerGig * v)
    ∧ (create_invoice demoTariff none 2 3).new_price = 121500
    ∧ (create_invoice demoTariff none 2 3).displayed_price = 121500 := by
  refine ⟨?_, ?_, ?_⟩
  · intro t current_price u v
    simp only [create_invoice]
    rcases Nat.eq_zero_or_pos u with hu | hu <;>
      rcases Nat.eq_zero_or_pos v with hv | hv
    · subst hu; subst hv; norm_num
    · subst hu; rw [if_neg (by omega), if_pos hv]; push_cast; ring
    · subst hv; rw [if_pos hu, if_neg (by omega)]; ring
    · rw [if_pos hu, if_pos hv]; ring
  · norm_num [create_invoice, demoTariff]
  · norm_num [create_invoice, demoTariff, pyInt]

/-- C9.  The provisioning-settings conversions are exact integer
arithmetic: `gb_to_bytes g = g × 1024³` for every non-negative integer
`g`, and `convert_days_to_epoch` returns the epoch-millisecond timestamp
of now plus `d × 86 400 000` milliseconds (now being the
epoch-millisecond reading `⌊now_us / 1000⌋` the call observes). -/
theorem c9_conversions_exact :
    (∀ g : ℕ, gb_to_bytes (g : ℚ) = (g : ℤ) * 1024 ^ 3)
    ∧ (∀ now_us expire_days : ℕ,
        convert_days_to_epoch now_us expire_days
          = now_us / 1000 + expire_days * 86400000) := by
  constructor
  · intro g
    unfold gb_to_bytes pyInt
    rw [if_pos (by positivity)]
    have h : (g : ℚ) * 1024 ^ 3 = ((g * 1024 ^ 3 : ℕ) : ℚ) := by
      push_cast; ring
    rw [h, Int.floor_natCast]
    push_cast; ring
  · intro now_us expire_days
    unfold convert_days_to_epoch
    omega

/-- C10.  `fetch_data` returns `None` both when no row matches and when
the query raises (the exception is swallowed and logged), so its callers
cannot distinguish a store failure from absence — unlike
`get_shared_data`, whose result on a backend error differs from its
result on a plain miss. -/
theorem c10_fetch_data_conflates_error_and_absence :
    (∀ Row : Type, fetch_data Row .err true = none)
    ∧ (∀ Row : Type, fetch_data Row (.ok []) true = none)
    ∧ (∀ Row : Type,
        fetch_data Row .err true = fetch_data Row (.ok []) true)
    ∧ get_shared_data .redisErr ≠ get_shared_data (.val none) := by
  refine ⟨fun _ => rfl, fun _ => rfl, fun _ => rfl, by simp [get_shared_data]⟩

/-- C7.  In invoice negotiation, `addUser` when
`base_users + additional_users` has reached the configured maximum
leaves `additional_users` unchanged and surfaces the limit alert;
`deductUser` at 0 is a no-op; and both interactions preserve
`0 ≤ additional_users ∧ base_users + additional_users ≤ max_allowed`. -/
theorem c7_negotiation_guards (maxAllowed base u : ℤ) :
    (base + u = maxAllowed → handleAddUser maxAllowed u base = (u, true))
    ∧ handleDeductUser 0 = (0, false)
    ∧ (0 ≤ u → base + u ≤ maxAllowed →
        (0 ≤ (handleAddUser maxAllowed u base).1
          ∧ base + (handleAddUser maxAllowed u base).1 ≤ maxAllowed)
        ∧ (0 ≤ (handleDeductUser u).1
          ∧ base + (handleDeductUser u).1 ≤ maxAllowed)) := by
  refine ⟨?_, by norm_num [handleDeductUser], ?_⟩
  · intro h
    unfold handleAddUser
    rw [if_neg (by omega)]
  · intro hu hle
    refine ⟨?_, ?_⟩
    · unfold handleAddUser
      split <;> constructor <;> omega
    · unfold handleDeductUser
      split
      · rw [max_eq_right (by omega : (0:ℤ) ≤ u - 1)]
        constructor <;> omega
      · constructor <;> omega

/-- Witness for C7 at `max_allowed = 3`, `base_users = 1`: adding at the
maximum (`u = 2`) alerts and keeps `u`; deducting at 0 is a no-op; the
bounds are preserved from `u = 1`. -/
theorem c7_negotiation_guards_witness :
    handleAddUser 3 2 1 = (2, true)
    ∧ handleDeductUser 0 = (0, false)
    ∧ (0 ≤ (handleAddUser 3 1 1).1 ∧ 1 + (handleAddUser 3 1 1).1 ≤ 3)
    ∧ (0 ≤ (handleDeductUser 1).1 ∧ 1 + (handleDeductUser 1).1 ≤ 3) := by
  have h2 := c7_negotiation_guards 3 1 2
  have h1 := c7_negotiation_guards 3 1 1
  exact ⟨h2.1 (by decide), h2.2.1,
    (h1.2.2 (by decide) (by decide)).1, (h1.2.2 (by decide) (by decide)).2⟩

/-- C8.  For a user whose persistent `UsedTestAcount` flag reads back
true, the free (price = 0) path answers the "already used" alert and
returns before any tariff lookup, leaving the state — in particular the
`create_user` call counter — untouched: the Provisioning Gateway is
never called. -/
theorem c8_free_path_single_use (env : FlowEnv)
    (tariffInfo : Option FreeTariffInfo) (s : FreeState)
    (h : s.usedTestAcount = true) :
    handleFreePurchase env (some s.usedTestAcount) tariffInfo s
      = (s, .alreadyUsedAlert)
    ∧ (handleFreePurchase env (some s.usedTestAcount) tariffInfo s).1.provisionCalls
      = s.provisionCalls := by
  unfold handleFreePurchase
  rw [h]
  simp

/-- Witness for C8: a concrete user with the flag set. -/
theorem c8_free_path_single_use_witness :
    handleFreePurchase env0 (some true) none ⟨true, 0⟩
      = (⟨true, 0⟩, .alreadyUsedAlert) := by
  have h := c8_free_path_single_use env0 none ⟨true, 0⟩ rfl
  exact h.1

/-- C6 counterexample.  The cancel-order transition is **not**
cancel-if-still-pending: applied to a table whose only row is already
`completed`, the unguarded `UPDATE … WHERE PurchaseID=%s` rewrites that
row to `cancel` instead of leaving it unchanged. -/
theorem c6_counterexample :
    (updateStatusCancel dbWithCompleted 1).rows
      = [{ completedPurchase with status := Status.cancel }]
    ∧ (updateStatusCancel dbWithCompleted 1).rows
      ≠ dbWithCompleted.rows := by
  constructor
  · simp [updateStatusCancel, dbWithCompleted, completedPurchase]
  · simp [updateStatusCancel, dbWithCompleted, completedPurchase]

/-- C6 amended.  The cancel-order transition is an unguarded single-row
write: `UPDATE PurchaseHistory SET Status = 'cancel' WHERE
PurchaseID=%s` sets the matching record's status to `cancel` whatever
its current status (there is no `Status = 'pending'` predicate), and
leaves records with other ids unchanged. -/
theorem c6_cancel_is_unguarded_write (db : PurchaseDB) (pid : ℕ) :
    (updateStatusCancel db pid).rows.length = db.rows.length
    ∧ (∀ r ∈ db.rows, r.purchaseID = pid →
        { r with status := Status.cancel } ∈ (updateStatusCancel db pid).rows)
    ∧ (∀ r ∈ db.rows, r.purchaseID ≠ pid →
        r ∈ (updateStatusCancel db pid).rows) := by
  refine ⟨by simp [updateStatusCancel], ?_, ?_⟩
  · intro r hr hpid
    have h := List.mem_map_of_mem
      (f := fun r : PurchaseRecord =>
        if r.purchaseID = pid then { r with status := Status.cancel } else r) hr
    simpa [updateStatusCancel, hpid] using h
  · intro r hr hpid
    have h := List.mem_map_of_mem
      (f := fun r : PurchaseRecord =>
        if r.purchaseID = pid then { r with status := Status.cancel } else r) hr
    simpa [updateStatusCancel, hpid] using h

/-- Witness for C6 amended, at the concrete one-row table: the completed
record with id 1 is rewritten to `cancel`. -/
theorem c6_cancel_is_unguarded_write_witness :
    { completedPurchase with status := Status.cancel }
      ∈ (updateStatusCancel dbWithCompleted 1).rows := by
  exact (c6_cancel_is_unguarded_write dbWithCompleted 1).2.1
    completedPurchase (by simp [dbWithCompleted]) (by rfl)

/-- C1 (evaluation at the failing input).  With a cached draft present,
a reachable server row and a responsive `"xui"` panel, the first
`confirm_payment` tap deletes the draft from the cache and then aborts
with the caught `TypeError` raised by `purchase_data["tariff_id"]` (the
cache stores `str(dict)` and returns a raw string), so **zero**
provisioning calls are made and every record stays `pending`; the second
tap finds the draft absent and reports "data not found".  The claim's
"provisions once / one Completed record" does not hold on the code as
written. -/
theorem c1_double_approval_eval :
    (stepUpdate env0 .confirmPayment sDraft).2 = .typeErrorCaught
    ∧ (stepUpdate env0 .confirmPayment sDraft).1.cache = none
    ∧ (stepUpdate env0 .confirmPayment sDraft).1.provisionCalls = 0
    ∧ (∀ r ∈ (stepUpdate env0 .confirmPayment sDraft).1.db.rows,
        r.status = Status.pending)
    ∧ (stepUpdate env0 .confirmPayment
        (stepUpdate env0 .confirmPayment sDraft).1).2 = .dataNotFound
    ∧ (stepUpdate env0 .confirmPayment
        (stepUpdate env0 .confirmPayment sDraft).1).1
      = (stepUpdate env0 .confirmPayment sDraft).1 := by
  refine ⟨rfl, rfl, rfl, ?_, rfl, rfl⟩
  intro r hr
  have hrows : (stepUpdate env0 .confirmPayment sDraft).1.db.rows
      = sDraft.db.rows := rfl
  rw [hrows] at hr
  simp only [sDraft, List.mem_singleton] at hr
  subst hr
  rfl

/-- Helper: no dispatched update can falsify "in `wait_for_photo`, the
purchase table is non-empty". -/
theorem rows_ne_nil_step (env : FlowEnv) (u : Update) (s : FlowState)
    (h : s.fsm = .waitForPhoto → s.db.rows ≠ []) :
    (stepUpdate env u s).1.fsm = .waitForPhoto →
    (stepUpdate env u s).1.db.rows ≠ [] := by
  cases u with
  | paid t us v a p d =>
    by_cases hf : s.fsm = .idle
    · intro _
      simp [stepUpdate, hf, handlePaid, insertPurchase]
    · simpa [stepUpdate, hf] using h
  | cancelPurchase pid =>
    by_cases hf : s.fsm = .waitForPhoto
    · simp [stepUpdate, hf, handleCancelPurchase]
    · simp [stepUpdate, hf]
  | receiptPhoto =>
    by_cases hf : s.fsm = .waitForPhoto
    · cases hc : s.cache with
      | none => simpa [stepUpdate, hf, handleReceiptPhoto, hc] using h
      | some raw =>
        simpa [stepUpdate, hf, handleReceiptPhoto, hc, pyStrGetItem] using h
    · simp [stepUpdate, hf]
  | confirmPayment =>
    cases hc : s.cache with
    | none => simpa [stepUpdate, handleConfirmPayment, hc] using h
    | some raw =>
      simpa [stepUpdate, handleConfirmPayment, hc, pyStrGetItem] using h

/-- Helper: the invariant of `rows_ne_nil_step`, over a whole run. -/
theorem rows_ne_nil_run (env : FlowEnv) (us : List Update) :
    ∀ s : FlowState, (s.fsm = .waitForPhoto → s.db.rows ≠ []) →
      ((runFlow env us s).fsm = .waitForPhoto →
        (runFlow env us s).db.rows ≠ []) := by
  induction us with
  | nil => exact fun s h => h
  | cons u rest ih => exact fun s h => ih _ (rows_ne_nil_step env u s h)

/-- C4.  Every dispatched press of "I have paid" inserts exactly one
`PurchaseHistory` row, with the schema-default status `pending`, and
switches the chat into `wait_for_photo`; and in every state reachable
from a fresh conversation in which a receipt photo can be processed at
all (`fsm = wait_for_photo`), the purchase table is already non-empty —
the insertion precedes any receipt upload, so a purchase cancelled
before upload still has an auditable record. -/
theorem c4_paid_inserts_pending_first :
    (∀ (env : FlowEnv) (s : FlowState) (tariff_id total_users total_volume : ℕ)
        (amount : ℤ) (platform : String) (duration : ℕ),
      s.fsm = .idle →
        (stepUpdate env
          (.paid tariff_id total_users total_volume amount platform duration)
          s).1.db.rows
          = s.db.rows ++ [{ purchaseID := s.db.nextID, chatID := env.chatID
                            tariffID := tariff_id, amount := amount
                            status := Status.pending
                            subscriptionURL := none }]
        ∧ (stepUpdate env
            (.paid tariff_id total_users total_volume amount platform duration)
            s).1.fsm = .waitForPhoto)
    ∧ (∀ (env : FlowEnv) (us : List Update),
        (runFlow env us flowInit).fsm = .waitForPhoto →
          (runFlow env us flowInit).db.rows ≠ []) := by
  constructor
  · intro env s tariff_id total_users total_volume amount platform duration hidle
    constructor <;> simp [stepUpdate, hidle, handlePaid, insertPurchase]
  · intro env us
    exact rows_ne_nil_run env us flowInit (by intro h; simp [flowInit] at h)

/-- Witness for C4 on a fresh conversation. -/
theorem c4_paid_inserts_pending_first_witness :
    (stepUpdate env0 (Update.paid 7 3 50 121500 "xui" 30) flowInit).1.db.rows
      = [{ purchaseID := 1, chatID := 10, tariffID := 7, amount := 121500
           status := Status.pending, subscriptionURL := none }]
    ∧ (runFlow env0 [Update.paid 7 3 50 121500 "xui" 30] flowInit).db.rows
      ≠ [] := by
  have h := c4_paid_inserts_pending_first
  have h1 := (h.1 env0 flowInit 7 3 50 121500 "xui" 30 rfl).1
  have h2 := h.2 env0 [Update.paid 7 3 50 121500 "xui" 30] (by rfl)
  exact ⟨by simpa [flowInit, env0] using h1, h2⟩

/-- Helper: the unguarded cancel write leaves rows with fresh-bounded
ids unchanged. -/
theorem updateStatusCancel_map_fresh (pid : ℕ) (rs : List PurchaseRecord)
    (h : ∀ r ∈ rs, r.purchaseID ≠ pid) :
    rs.map (fun r =>
        if r.purchaseID = pid then { r with status := Status.cancel } else r)
      = rs := by
  induction rs with
  | nil => rfl
  | cons r rest ih =>
    simp only [List.map_cons]
    rw [if_neg (h r (List.mem_cons_self r rest)),
      ih fun x hx => h x (List.mem_cons_of_mem r hx)]

/-- C5.  Tapping "paid" and then "cancel order" before uploading a photo
leaves the freshly inserted record with status `cancel` and clears
`wait_for_photo`; a photo arriving afterwards is not dispatched to the
receipt handler and changes nothing — in particular, no provisioning
call can ever result from it. -/
theorem c5_cancel_blocks_photo (env : FlowEnv) (s0 : FlowState)
    (tariff_id total_users total_volume : ℕ) (amount : ℤ)
    (platform : String) (duration : ℕ)
    (hidle : s0.fsm = .idle)
    (hfresh : ∀ r ∈ s0.db.rows, r.purchaseID < s0.db.nextID) :
    (runFlow env
        [Update.paid tariff_id total_users total_volume amount platform duration,
         Update.cancelPurchase s0.db.nextID] s0).db.rows
      = s0.db.rows ++ [{ purchaseID := s0.db.nextID, chatID := env.chatID
                         tariffID := tariff_id, amount := amount
                         status := Status.cancel, subscriptionURL := none }]
    ∧ (runFlow env
        [Update.paid tariff_id total_users total_volume amount platform duration,
         Update.cancelPurchase s0.db.nextID] s0).fsm = .idle
    ∧ stepUpdate env .receiptPhoto (runFlow env
        [Update.paid tariff_id total_users total_volume amount platform duration,
         Update.cancelPurchase s0.db.nextID] s0)
      = (runFlow env
          [Update.paid tariff_id total_users total_volume amount platform duration,
           Update.cancelPurchase s0.db.nextID] s0, .notDispatched)
    ∧ (runFlow env
        [Update.paid tariff_id total_users total_volume amount platform duration,
         Update.cancelPurchase s0.db.nextID] s0).provisionCalls
      = s0.provisionCalls := by
  have hmap := updateStatusCancel_map_fresh s0.db.nextID s0.db.rows
    fun r hr => Nat.ne_of_lt (hfresh r hr)
  have hfinal : runFlow env
      [Update.paid tariff_id total_users total_volume amount platform duration,
       Update.cancelPurchase s0.db.nextID] s0
      = { db := { rows := s0.db.rows ++
                    [{ purchaseID := s0.db.nextID, chatID := env.chatID
                       tariffID := tariff_id, amount := amount
                       status := Status.cancel, subscriptionURL := none }]
                  nextID := s0.db.nextID + 1 }
          fsm := .idle
          cache := some (pyStrOfDict
            { tariff_id := tariff_id, users := total_users
              volume := total_volume, amount := amount
              purchase_id := s0.db.nextID, platform := platform
              duration := duration, name := env.userName })
          provisionCalls := s0.provisionCalls
          adminHasReceipt := s0.adminHasReceipt } := by
    show (stepUpdate env (Update.cancelPurchase s0.db.nextID)
      (stepUpdate env
        (Update.paid tariff_id total_users total_volume amount platform duration)
        s0).1).1 = _
    simp [stepUpdate, hidle, handlePaid, insertPurchase, handleCancelPurchase,
      updateStatusCancel, hmap]
  refine ⟨by rw [hfinal], by rw [hfinal], ?_, by rw [hfinal]⟩
  rw [hfinal]
  simp [stepUpdate]

/-- Witness for C5 on a fresh conversation. -/
theorem c5_cancel_blocks_photo_witness :
    (runFlow env0 [Update.paid 7 3 50 121500 "xui" 30,
        Update.cancelPurchase 1] flowInit).db.rows
      = [{ purchaseID := 1, chatID := 10, tariffID := 7, amount := 121500
           status := Status.cancel, subscriptionURL := none }]
    ∧ stepUpdate env0 Update.receiptPhoto
        (runFlow env0 [Update.paid 7 3 50 121500 "xui" 30,
          Update.cancelPurchase 1] flowInit)
      = (runFlow env0 [Update.paid 7 3 50 121500 "xui" 30,
          Update.cancelPurchase 1] flowInit, .notDispatched) := by
  have h := c5_cancel_blocks_photo env0 flowInit 7 3 50 121500 "xui" 30 rfl
    (by simp [flowInit])
  exact ⟨by simpa [flowInit, env0] using h.1, by simpa [flowInit] using h.2.2.1⟩

/-- C2 counterexample.  Running two concurrent `edit_or_send_new` calls
for one chat under the interleaving `badSched` (both pointer reads
before either lock acquisition — possible because the read precedes
`async with get_lock` in the source): both reads happen with the lock
free (`readLockHeld = [false, false]`), both calls send a fresh message
(`sent = [0, 1]`, nothing edited), and the first message is left behind
— not the claimed "read, decision and write all under the lock, hence
exactly one current message". -/
theorem c2_counterexample :
    (runRender renderEnvEditable badSched renderInit).thA.pc = RenderPC.done
    ∧ (runRender renderEnvEditable badSched renderInit).thB.pc = RenderPC.done
    ∧ (runRender renderEnvEditable badSched renderInit).readLockHeld
      = [false, false]
    ∧ (runRender renderEnvEditable badSched renderInit).sent = [0, 1]
    ∧ (runRender renderEnvEditable badSched renderInit).edited = []
    ∧ (runRender renderEnvEditable badSched renderInit).pointer = some 1 := by
  refine ⟨rfl, rfl, rfl, rfl, rfl, rfl⟩

/-- Helper: one step of either thread preserves the locking invariant. -/
theorem lockInv_step (env : RenderEnv) (t : Bool) (s : RenderWorld)
    (h : LockInv s) : LockInv (edit_or_send_new_step env t s) := by
  obtain ⟨h1, h2⟩ := h
  cases t with
  | false =>
    rcases hpc : s.thA.pc with _ | _ | _ | _ | _ | _
    · simp_all [edit_or_send_new_step, RenderWorld.getTh, RenderWorld.setTh,
        LockInv, inCritical]
    · by_cases hlo : s.lockOwner = none <;>
        simp_all [edit_or_send_new_step, RenderWorld.getTh, RenderWorld.setTh,
          LockInv, inCritical]
    · rcases hrv : s.thA.readVal with _ | ⟨_ | m⟩
      · simp_all [edit_or_send_new_step, RenderWorld.getTh, RenderWorld.setTh,
          LockInv, inCritical]
      · simp_all [edit_or_send_new_step, RenderWorld.getTh, RenderWorld.setTh,
          LockInv, inCritical]
      · by_cases he : env.editable m <;>
          simp_all [edit_or_send_new_step, RenderWorld.getTh, RenderWorld.setTh,
            LockInv, inCritical]
    · simp_all [edit_or_send_new_step, RenderWorld.getTh, RenderWorld.setTh,
        LockInv, inCritical]
    · simp_all [edit_or_send_new_step, RenderWorld.getTh, RenderWorld.setTh,
        LockInv, inCritical]
    · simp_all [edit_or_send_new_step, RenderWorld.getTh, RenderWorld.setTh,
        LockInv, inCritical]
  | true =>
    rcases hpc : s.thB.pc with _ | _ | _ | _ | _ | _
    · simp_all [edit_or_send_new_step, RenderWorld.getTh, RenderWorld.setTh,
        LockInv, inCritical]
    · by_cases hlo : s.lockOwner = none <;>
        simp_all [edit_or_send_new_step, RenderWorld.getTh, RenderWorld.setTh,
          LockInv, inCritical]
    · rcases hrv : s.thB.readVal with _ | ⟨_ | m⟩
      · simp_all [edit_or_send_new_step, RenderWorld.getTh, RenderWorld.setTh,
          LockInv, inCritical]
      · simp_all [edit_or_send_new_step, RenderWorld.getTh, RenderWorld.setTh,
          LockInv, inCritical]
      · by_cases he : env.editable m <;>
          simp_all [edit_or_send_new_step, RenderWorld.getTh, RenderWorld.setTh,
            LockInv, inCritical]
    · simp_all [edit_or_send_new_step, RenderWorld.getTh, RenderWorld.setTh,
        LockInv, inCritical]
    · simp_all [edit_or_send_new_step, RenderWorld.getTh, RenderWorld.setTh,
        LockInv, inCritical]
    · simp_all [edit_or_send_new_step, RenderWorld.getTh, RenderWorld.setTh,
        LockInv, inCritical]

/-- C2 amended.  In `edit_or_send_new` the edit-or-send decision and the
pointer write do occur while the chat's lock is held — under every
interleaving of two render calls, a thread is in the decision/write
phase exactly when it owns the lock, so the two critical sections are
mutually exclusive, and the lock is free once both calls complete (the
`async with` releases on every exit path).  The pointer **read**,
however, precedes lock acquisition (see `c2_counterexample` for the
resulting double send). -/
theorem c2_lock_covers_decision_and_write (env : RenderEnv)
    (sched : List Bool) :
    LockInv (runRender env sched renderInit)
    ∧ ¬(inCritical (runRender env sched renderInit).thA.pc = true
        ∧ inCritical (runRender env sched renderInit).thB.pc = true)
    ∧ ((runRender env sched renderInit).thA.pc = .done →
        (runRender env sched renderInit).thB.pc = .done →
        (runRender env sched renderInit).lockOwner = none) := by
  have hrun : ∀ (l : List Bool) (s : RenderWorld), LockInv s →
      LockInv (runRender env l s) := by
    intro l
    induction l with
    | nil => exact fun s hs => hs
    | cons x rest ih => exact fun s hs => ih _ (lockInv_step env x s hs)
  have hinv := hrun sched renderInit (by constructor <;> simp [renderInit, inCritical])
  refine ⟨hinv, ?_, ?_⟩
  · rintro ⟨ha, hb⟩
    have hfa := hinv.1.mpr ha
    have hfb := hinv.2.mpr hb
    rw [hfa] at hfb
    exact absurd hfb (by simp)
  · intro ha hb
    rcases hlo : (runRender env sched renderInit).lockOwner with _ | b
    · rfl
    · cases b
      · exact absurd (hinv.1.mp hlo) (by simp [ha, inCritical])
      · exact absurd (hinv.2.mp hlo) (by simp [hb, inCritical])

/-- Witness for C2 amended: the serial schedule completes both calls and
the theorem yields that the lock ends up free. -/
theorem c2_lock_covers_decision_and_write_witness :
    (runRender renderEnvEditable serialSched renderInit).lockOwner = none := by
  have h := c2_lock_covers_decision_and_write renderEnvEditable serialSched
  exact h.2.2 (by decide) (by decide)
